import Mathlib

/-!
Shallow embedding of the MVP calendar application (src/app.tsx and the expo
config file): the session holder, the Google Calendar client, the WhatsApp
message composer, the deep-link dispatcher and the single-screen controller,
together with proofs about the specification's claims.

External effects (the OAuth prompt, axios, `Linking`, the contacts API) are
modelled by oracle parameters giving each call's outcome; network requests
actually performed are returned explicitly so that "no network call" is a
statement about the embedding.  The dayjs library is modelled for the input
shapes this application feeds it, assuming a UTC device timezone.
-/

namespace MVP

/-- JavaScript truthiness for an optional string: `undefined`/`null` and the
empty string are falsy. -/
def jsTruthy : Option String → Bool
  | none => false
  | some s => s != ""

/-- JavaScript `a || b` on optional strings: `a` when truthy, otherwise `b`. -/
def jsOr (a b : Option String) : Option String :=
  if jsTruthy a then a else b

/-- JavaScript `a || d` where the right operand is a plain (default) string. -/
def jsOrD (a : Option String) (d : String) : String :=
  match a with
  | none => d
  | some s => if s = "" then d else s

/-- JavaScript `m || d` on plain strings (used for `e?.message || "..."`). -/
def jsOrDS (m d : String) : String :=
  if m = "" then d else m

/-- JavaScript `p || undefined` on a string: the empty string becomes absent.
Models the `phone || undefined` argument at the `sendWhatsAppMessage` call. -/
def jsUndefined (s : String) : Option String :=
  if s = "" then none else some s

/-- The JavaScript white-space and line-terminator code points removed by
`String.prototype.trim`. -/
def isJsSpace (c : Char) : Bool :=
  ([9, 10, 11, 12, 13, 32, 160, 5760, 8192, 8193, 8194, 8195, 8196, 8197,
    8198, 8199, 8200, 8201, 8202, 8232, 8233, 8239, 8287, 12288,
    65279] : List Nat).contains c.toNat

/-- Model of JavaScript `String.prototype.trim`. -/
def jsTrim (s : String) : String :=
  String.mk (((s.data.dropWhile isJsSpace).reverse.dropWhile isJsSpace).reverse)

/-! ### dayjs model

The application hands dayjs: provider timestamps (`YYYY-MM-DDTHH:mm:ss` with
an optional `Z`), provider all-day dates (`YYYY-MM-DD`), and the form's
`YYYY-MM-DD HH:mm` strings.  The model parses exactly those shapes and treats
the device timezone as UTC, so no offset arithmetic arises; every other input
is an invalid date, which dayjs formats as `"Invalid Date"`. -/

/-- A calendar instant as dayjs exposes it (UTC device timezone). -/
structure Datetime where
  year : Nat
  month : Nat
  day : Nat
  hour : Nat
  minute : Nat
  second : Nat
deriving DecidableEq, Repr

/-- All characters are decimal digits. -/
def isDigits (cs : List Char) : Bool :=
  cs.all Char.isDigit

/-- Numeric value of a digit string. -/
def digitsVal (cs : List Char) : Nat :=
  cs.foldl (fun acc c => acc * 10 + (c.toNat - 48)) 0

/-- Model of the dayjs parser, restricted to the date/time string shapes this
application produces or receives (UTC device timezone assumed). -/
def dayjsParse (s : String) : Option Datetime :=
  match s.data with
  | [y1, y2, y3, y4, '-', o1, o2, '-', d1, d2] =>
    if isDigits [y1, y2, y3, y4, o1, o2, d1, d2] then
      some ⟨digitsVal [y1, y2, y3, y4], digitsVal [o1, o2], digitsVal [d1, d2], 0, 0, 0⟩
    else none
  | [y1, y2, y3, y4, '-', o1, o2, '-', d1, d2, 'T', h1, h2, ':', i1, i2, ':', c1, c2] =>
    if isDigits [y1, y2, y3, y4, o1, o2, d1, d2, h1, h2, i1, i2, c1, c2] then
      some ⟨digitsVal [y1, y2, y3, y4], digitsVal [o1, o2], digitsVal [d1, d2],
            digitsVal [h1, h2], digitsVal [i1, i2], digitsVal [c1, c2]⟩
    else none
  | [y1, y2, y3, y4, '-', o1, o2, '-', d1, d2, 'T', h1, h2, ':', i1, i2, ':', c1, c2, 'Z'] =>
    if isDigits [y1, y2, y3, y4, o1, o2, d1, d2, h1, h2, i1, i2, c1, c2] then
      some ⟨digitsVal [y1, y2, y3, y4], digitsVal [o1, o2], digitsVal [d1, d2],
            digitsVal [h1, h2], digitsVal [i1, i2], digitsVal [c1, c2]⟩
    else none
  | [y1, y2, y3, y4, '-', o1, o2, '-', d1, d2, ' ', h1, h2, ':', i1, i2] =>
    if isDigits [y1, y2, y3, y4, o1, o2, d1, d2, h1, h2, i1, i2] then
      some ⟨digitsVal [y1, y2, y3, y4], digitsVal [o1, o2], digitsVal [d1, d2],
            digitsVal [h1, h2], digitsVal [i1, i2], 0⟩
    else none
  | _ => none

/-- Two-digit zero-padded decimal. -/
def pad2 (n : Nat) : String :=
  if n < 10 then "0" ++ toString n else toString n

/-- Three-digit zero-padded decimal (milliseconds). -/
def pad3 (n : Nat) : String :=
  if n < 10 then "00" ++ toString n
  else if n < 100 then "0" ++ toString n
  else toString n

/-- Four-digit zero-padded decimal (years). -/
def pad4 (n : Nat) : String :=
  if n < 10 then "000" ++ toString n
  else if n < 100 then "00" ++ toString n
  else if n < 1000 then "0" ++ toString n
  else toString n

/-- dayjs `format("YYYY-MM-DD")` on a valid instant. -/
def formatDay (d : Datetime) : String :=
  pad4 d.year ++ "-" ++ pad2 d.month ++ "-" ++ pad2 d.day

/-- dayjs `format("HH:mm")` on a valid instant. -/
def formatHM (d : Datetime) : String :=
  pad2 d.hour ++ ":" ++ pad2 d.minute

/-- `dayjs(s).format("YYYY-MM-DD")` where `s` may be `undefined` (dayjs then
uses the current instant) or unparsable (dayjs formats as `"Invalid Date"`). -/
def dayjsDayKey (now : Datetime) : Option String → String
  | none => formatDay now
  | some s =>
    match dayjsParse s with
    | some d => formatDay d
    | none => "Invalid Date"

/-- `dayjs(s).format("HH:mm")` under the same conventions as `dayjsDayKey`. -/
def dayjsHM (now : Datetime) : Option String → String
  | none => formatHM now
  | some s =>
    match dayjsParse s with
    | some d => formatHM d
    | none => "Invalid Date"

/-- Gregorian leap year. -/
def isLeap (y : Nat) : Bool :=
  (y % 4 == 0 && y % 100 != 0) || y % 400 == 0

/-- Number of days in a month. -/
def daysInMonth (y m : Nat) : Nat :=
  if m = 2 then (if isLeap y then 29 else 28)
  else if m = 4 ∨ m = 6 ∨ m = 9 ∨ m = 11 then 30
  else 31

/-- `Date.prototype.toISOString` on a valid instant with the given
milliseconds (UTC device timezone, so no offset conversion). -/
def toISOString (d : Datetime) (ms : Nat) : String :=
  formatDay d ++ "T" ++ pad2 d.hour ++ ":" ++ pad2 d.minute ++ ":" ++
    pad2 d.second ++ "." ++ pad3 ms ++ "Z"

/-- `dayjs().startOf("month").toISOString()`. -/
def monthStartISO (now : Datetime) : String :=
  toISOString ⟨now.year, now.month, 1, 0, 0, 0⟩ 0

/-- `dayjs().endOf("month").toISOString()`. -/
def monthEndISO (now : Datetime) : String :=
  toISOString ⟨now.year, now.month, daysInMonth now.year now.month, 23, 59, 59⟩ 999

/-! ### WhatsApp message composer -/

/-- Parameter object of `buildWhatsAppText` (`end` is a Lean keyword, hence
`end_`). -/
structure WAParams where
  title : String
  start : String
  end_ : String
  location : Option String
  link : Option String
deriving DecidableEq, Repr

/-- The message composer `buildWhatsAppText` of src/app.tsx: a template
literal of four physical lines whose last line is empty when the link is
falsy. -/
def buildWhatsAppText (p : WAParams) : String :=
  "📅 *" ++ p.title ++ "*\n" ++
  "🕒 " ++ p.start ++ " - " ++ p.end_ ++ "\n" ++
  "📍 " ++ jsOrD p.location "—" ++ "\n" ++
  (if jsTruthy p.link then "🔗 " ++ p.link.getD "" else "")

/-- Number of lines of a text block: newline-terminated lines plus a final
unterminated one (a trailing newline does not open an extra empty line). -/
def countLines (s : String) : Nat :=
  if s.data.isEmpty then 0
  else s.data.count '\n' + (if s.data.getLast? = some '\n' then 0 else 1)

/-- A string contains no newline character. -/
def noNewline (s : String) : Bool :=
  s.data.all (fun c => c != '\n')

/-! ### URL encoding and the deep-link dispatcher -/

/-- Characters `encodeURIComponent` leaves unescaped: ASCII alphanumerics and
`- _ . ! ~ * ' ( )`. -/
def uriUnreserved (c : Char) : Bool :=
  c.isAlphanum || c == '-' || c == '_' || c == '.' || c == '!' || c == '~' ||
  c == '*' || c == Char.ofNat 39 || c == '(' || c == ')'

/-- UTF-8 bytes of a character, as numbers below 256. -/
def utf8Bytes (c : Char) : List Nat :=
  let n := c.toNat
  if n < 128 then [n]
  else if n < 2048 then [192 + n / 64, 128 + n % 64]
  else if n < 65536 then [224 + n / 4096, 128 + (n / 64) % 64, 128 + n % 64]
  else [240 + n / 262144, 128 + (n / 4096) % 64, 128 + (n / 64) % 64, 128 + n % 64]

/-- Uppercase hexadecimal digit. -/
def hexDigit (n : Nat) : Char :=
  if n < 10 then Char.ofNat (48 + n) else Char.ofNat (55 + n)

/-- Percent-encoding of one byte, uppercase hex. -/
def percentEncodeByte (b : Nat) : String :=
  "%" ++ String.singleton (hexDigit (b / 16)) ++ String.singleton (hexDigit (b % 16))

/-- `encodeURIComponent` on one character. -/
def percentEncodeChar (c : Char) : String :=
  if uriUnreserved c then String.singleton c
  else String.join ((utf8Bytes c).map percentEncodeByte)

/-- Model of JavaScript `encodeURIComponent`. -/
def encodeURIComponent (s : String) : String :=
  String.join (s.data.map percentEncodeChar)

/-- The deep-link dispatcher `sendWhatsAppMessage` of src/app.tsx.  The
`Linking.canOpenURL` probe is the oracle `canOpenURL`; the returned string is
the URL handed to `Linking.openURL`.  Both `phone ? ... : ...` ternaries test
the phone with JavaScript truthiness, so an empty-string phone selects the
no-phone variant exactly like an absent one. -/
def sendWhatsAppMessage (canOpenURL : String → Bool) (text : String)
    (phone : Option String) : String :=
  let encoded := encodeURIComponent text
  let url :=
    if jsTruthy phone then "whatsapp://send?phone=" ++ phone.getD "" ++ "&text=" ++ encoded
    else "whatsapp://send?text=" ++ encoded
  let canOpen := canOpenURL "whatsapp://send"
  if canOpen then url
  else
    if jsTruthy phone then "https://wa.me/" ++ phone.getD "" ++ "?text=" ++ encoded
    else "https://wa.me/?text=" ++ encoded

/-! ### Calendar client -/

/-- The `start`/`end` object of a provider event. -/
structure GEventTime where
  dateTime : Option String
  date : Option String
deriving DecidableEq, Repr

/-- A provider calendar event (the fields this application reads). -/
structure GEvent where
  summary : Option String
  start : Option GEventTime
  end_ : Option GEventTime
  htmlLink : Option String
deriving DecidableEq, Repr

/-- The `data` object of a list-events response (`items` may be absent). -/
structure RespData where
  items : Option (List GEvent)
deriving DecidableEq, Repr

/-- The JSON body `createEvent` posts. -/
structure CreateBody where
  summary : String
  startISO : String
  endISO : String
  location : Option String
deriving DecidableEq, Repr

/-- One HTTP request actually handed to axios. -/
structure NetCall where
  method : String
  url : String
  params : List (String × String)
  body : Option CreateBody
deriving DecidableEq, Repr

/-- The calendar REST base URL `CAL_BASE`. -/
def CAL_BASE : String :=
  "https://www.googleapis.com/calendar/v3"

/-- `authHeader` of src/app.tsx: throws `"No autenticado"` when the stored
token is falsy, otherwise yields the bearer header value. -/
def authHeader (token : Option String) : Except String String :=
  if jsTruthy token then Except.ok ("Bearer " ++ token.getD "")
  else Except.error "No autenticado"

/-- `listEvents` of src/app.tsx.  `token` is the module-level `ACCESS_TOKEN`,
`net` the axios outcome oracle; the second component lists the HTTP requests
performed.  `authHeader` runs while the request options are built, so a falsy
token aborts before any request exists. -/
def listEvents (token : Option String) (net : Except String RespData)
    (timeMinISO timeMaxISO : String) :
    Except String (List GEvent) × List NetCall :=
  match authHeader token with
  | Except.error e => (Except.error e, [])
  | Except.ok _auth =>
    let call : NetCall :=
      ⟨"GET", CAL_BASE ++ "/calendars/primary/events",
        [("timeMin", timeMinISO), ("timeMax", timeMaxISO),
         ("singleEvents", "true"), ("orderBy", "startTime")], none⟩
    match net with
    | Except.error m => (Except.error m, [call])
    | Except.ok data => (Except.ok (data.items.getD []), [call])

/-- `createEvent` of src/app.tsx, under the same conventions as
`listEvents`. -/
def createEvent (token : Option String) (net : Except String GEvent)
    (evt : CreateBody) : Except String GEvent × List NetCall :=
  match authHeader token with
  | Except.error e => (Except.error e, [])
  | Except.ok _auth =>
    let call : NetCall := ⟨"POST", CAL_BASE ++ "/calendars/primary/events", [], some evt⟩
    match net with
    | Except.error m => (Except.error m, [call])
    | Except.ok data => (Except.ok data, [call])

/-! ### Agenda index -/

/-- One agenda item as pushed by `loadMonthEvents`. -/
structure AgendaEntry where
  name : String
  time : String
  raw : GEvent
deriving DecidableEq, Repr

/-- `e?.start?.dateTime || e?.start?.date`. -/
def effStart (e : GEvent) : Option String :=
  jsOr (e.start.bind GEventTime.dateTime) (e.start.bind GEventTime.date)

/-- `e?.end?.dateTime || e?.end?.date`. -/
def effEnd (e : GEvent) : Option String :=
  jsOr (e.end_.bind GEventTime.dateTime) (e.end_.bind GEventTime.date)

/-- The simplified agenda entry built for one provider event. -/
def entryOf (now : Datetime) (e : GEvent) : AgendaEntry :=
  let s := effStart e
  let f := effEnd e
  { name := jsOrD e.summary "(Sin título)"
    time :=
      if jsTruthy s && jsTruthy f then dayjsHM now s ++ " - " ++ dayjsHM now f
      else "Todo el día"
    raw := e }

/-- The agenda key of one provider event: `dayjs(s).format("YYYY-MM-DD")`. -/
def keyOf (now : Datetime) (e : GEvent) : String :=
  dayjsDayKey now (effStart e)

/-- `if (!map[key]) map[key] = []; map[key].push(v)` on an insertion-ordered
record. -/
def insertEntry (m : List (String × List AgendaEntry)) (k : String)
    (v : AgendaEntry) : List (String × List AgendaEntry) :=
  match m with
  | [] => [(k, [v])]
  | (k0, vs) :: rest =>
    if k0 = k then (k0, vs ++ [v]) :: rest
    else (k0, vs) :: insertEntry rest k v

/-- The agenda mapping `loadMonthEvents` builds from the fetched events. -/
def buildAgenda (now : Datetime) (events : List GEvent) :
    List (String × List AgendaEntry) :=
  events.foldl (fun m e => insertEntry m (keyOf now e) (entryOf now e)) []

/-- `map[key]` read as the (possibly empty) entry sequence. -/
def agendaGet (m : List (String × List AgendaEntry)) (k : String) :
    List AgendaEntry :=
  (List.lookup k m).getD []

/-! ### Controller -/

/-- The controller's state: React state hooks, the module-level
`ACCESS_TOKEN`, and logs of observable effects (alerts shown, console
warnings, URLs opened, HTTP requests performed). -/
structure AppState where
  accessToken : Option String
  logged : Bool
  items : List (String × List AgendaEntry)
  loadingEvents : Bool
  title : String
  date : String
  start : String
  end_ : String
  location : String
  phone : String
  contactsCount : Nat
  alerts : List (String × String)
  warnings : Nat
  opened : List String
  httpCalls : List NetCall
deriving DecidableEq, Repr

/-- `loadMonthEvents` of src/app.tsx: fetch the month's events and rebuild the
agenda mapping; on failure, warn on the console and keep the old mapping. -/
def loadMonthEvents (now : Datetime) (net : Except String RespData)
    (s : AppState) : AppState :=
  let startISO := monthStartISO now
  let endISO := monthEndISO now
  let res := listEvents s.accessToken net startISO endISO
  match res.1 with
  | Except.ok events =>
    { s with items := buildAgenda now events, loadingEvents := false,
             httpCalls := s.httpCalls ++ res.2 }
  | Except.error _ =>
    { s with warnings := s.warnings + 1, loadingEvents := false,
             httpCalls := s.httpCalls ++ res.2 }

/-- `handleLogin` of src/app.tsx, with `signInWithGoogle` folded in: `auth`
is the sign-in outcome oracle (token on success), `fetch` the following
month-fetch oracle. -/
def handleLogin (now : Datetime) (auth : Except String String)
    (fetch : Except String RespData) (s : AppState) : AppState :=
  match auth with
  | Except.ok token =>
    loadMonthEvents now fetch { s with accessToken := some token, logged := true }
  | Except.error m =>
    { s with alerts := s.alerts ++ [("Error", jsOrDS m "No se pudo iniciar sesión.")] }

/-- `onCreateEvent` of src/app.tsx.  `createNet` is the create-call oracle,
`canOpenWA` the `Linking.canOpenURL` probe outcome, `refetch` the oracle of
the refresh that follows a successful creation.  An unparsable date/time
makes `toISOString` throw `"Invalid time value"` before any request. -/
def onCreateEvent (now : Datetime) (createNet : Except String GEvent)
    (canOpenWA : Bool) (refetch : Except String RespData) (s : AppState) :
    AppState :=
  if jsTrim s.title = "" then
    { s with alerts := s.alerts ++ [("Falta título", "Ingresa un título.")] }
  else
    match dayjsParse (s.date ++ " " ++ s.start), dayjsParse (s.date ++ " " ++ s.end_) with
    | some ds, some de =>
      let res := createEvent s.accessToken createNet
        ⟨jsTrim s.title, toISOString ds 0, toISOString de 0, some (jsTrim s.location)⟩
      (match res.1 with
       | Except.error m =>
         { s with alerts := s.alerts ++ [("Error", jsOrDS m "No se pudo crear el evento.")],
                  httpCalls := s.httpCalls ++ res.2 }
       | Except.ok evt =>
         let text := buildWhatsAppText
           ⟨jsTrim s.title, s.date ++ " " ++ s.start, s.date ++ " " ++ s.end_,
            some (jsTrim s.location), evt.htmlLink⟩
         let url := sendWhatsAppMessage (fun _ => canOpenWA) text (jsUndefined s.phone)
         let s1 :=
           { s with httpCalls := s.httpCalls ++ res.2, opened := s.opened ++ [url],
                    alerts := s.alerts ++ [("Listo", "Evento creado y WhatsApp abierto.")],
                    title := "" }
         loadMonthEvents now refetch s1)
    | _, _ =>
      { s with alerts := s.alerts ++ [("Error", "Invalid time value")] }

/-- `importContacts` of src/app.tsx: `granted` is the permission outcome,
`count` the number of contacts read. -/
def importContacts (granted : Bool) (count : Nat) (s : AppState) : AppState :=
  if granted then
    { s with contactsCount := count,
             alerts := s.alerts ++
               [("Contactos", "Se cargaron " ++ toString count ++ " contactos (solo local).")] }
  else
    { s with alerts := s.alerts ++ [("Permiso", "Acceso a contactos denegado.")] }

/-- One user action, carrying the oracles for the external outcomes its
handler consumes. -/
inductive Action where
  | login (auth : Except String String) (fetch : Except String RespData)
  | refresh (fetch : Except String RespData)
  | createEvt (createNet : Except String GEvent) (canOpenWA : Bool)
      (refetch : Except String RespData)
  | importC (granted : Bool) (count : Nat)
  | setTitle (v : String)
  | setDate (v : String)
  | setStart (v : String)
  | setEnd (v : String)
  | setLocation (v : String)
  | setPhone (v : String)

/-- The controller's transition function. -/
def step (now : Datetime) (s : AppState) : Action → AppState
  | Action.login auth fetch => handleLogin now auth fetch s
  | Action.refresh fetch => loadMonthEvents now fetch s
  | Action.createEvt c co r => onCreateEvent now c co r s
  | Action.importC g n => importContacts g n s
  | Action.setTitle v => { s with title := v }
  | Action.setDate v => { s with date := v }
  | Action.setStart v => { s with start := v }
  | Action.setEnd v => { s with end_ := v }
  | Action.setLocation v => { s with location := v }
  | Action.setPhone v => { s with phone := v }

/-- The initial state of the component. -/
def initState (now : Datetime) : AppState :=
  { accessToken := none, logged := false, items := [], loadingEvents := false,
    title := "", date := formatDay now, start := "10:00", end_ := "11:00",
    location := "", phone := "", contactsCount := 0, alerts := [],
    warnings := 0, opened := [], httpCalls := [] }

/-- Run a sequence of user actions from the initial state. -/
def run (now : Datetime) (acts : List Action) : AppState :=
  acts.foldl (step now) (initState now)

/-! ## Helper lemmas -/

theorem noNewline_count {s : String} (h : noNewline s = true) :
    s.data.count '\n' = 0 := by
  rw [List.count_eq_zero]
  intro hmem
  have := List.all_eq_true.mp h '\n' hmem
  simp at this

theorem data_ne_nil {s : String} (h : s ≠ "") : s.data ≠ [] := by
  intro hd
  exact h (String.ext hd)

theorem buildWhatsAppText_data (p : WAParams) :
    (buildWhatsAppText p).data =
      ("📅 *" : String).data ++ p.title.data ++ ("*\n" : String).data ++
      ("🕒 " : String).data ++ p.start.data ++ (" - " : String).data ++
      p.end_.data ++ ("\n" : String).data ++ ("📍 " : String).data ++
      (jsOrD p.location "—").data ++ ("\n" : String).data ++
      (if jsTruthy p.link then ("🔗 " : String) ++ p.link.getD "" else "").data := by
  simp [buildWhatsAppText, String.data_append]

/-! ## Claim theorems -/

/-- C1: a call to `listEvents` or `createEvent` while no session token is
stored fails with the `"No autenticado"` error, and the HTTP layer is never
invoked (the returned request log is empty), whatever the network oracle
would have answered. -/
theorem unauthenticated_no_network (netL : Except String RespData)
    (tmin tmax : String) (netC : Except String GEvent) (body : CreateBody) :
    listEvents none netL tmin tmax = (Except.error "No autenticado", []) ∧
    createEvent none netC body = (Except.error "No autenticado", []) :=
  ⟨rfl, rfl⟩

/-- C4: `sendWhatsAppMessage` first probes whether the `whatsapp://send`
scheme is resolvable; when it is, it opens the scheme URL built with the
URL-encoded text (and the phone when provided, i.e. when the phone string is
truthy), otherwise it opens the `wa.me` web fallback carrying the same
encoded text (and the phone under the same condition). -/
theorem sendWhatsAppMessage_dispatch (canOpenURL : String → Bool)
    (text : String) (phone : Option String) :
    (canOpenURL "whatsapp://send" = true →
      sendWhatsAppMessage canOpenURL text phone =
        if jsTruthy phone then
          "whatsapp://send?phone=" ++ phone.getD "" ++ "&text=" ++ encodeURIComponent text
        else "whatsapp://send?text=" ++ encodeURIComponent text) ∧
    (canOpenURL "whatsapp://send" = false →
      sendWhatsAppMessage canOpenURL text phone =
        if jsTruthy phone then
          "https://wa.me/" ++ phone.getD "" ++ "?text=" ++ encodeURIComponent text
        else "https://wa.me/?text=" ++ encodeURIComponent text) := by
  constructor <;> intro h <;> cases hp : jsTruthy phone <;>
    simp [sendWhatsAppMessage, h, hp]

/-- Witness for C4 at concrete inputs, both resolvable and not. -/
theorem sendWhatsAppMessage_dispatch_witness :
    ((fun _ => true) "whatsapp://send" = true ∧
      sendWhatsAppMessage (fun _ => true) "hola" (some "549") =
        "whatsapp://send?phone=" ++ "549" ++ "&text=" ++ encodeURIComponent "hola") ∧
    ((fun _ => false) "whatsapp://send" = false ∧
      sendWhatsAppMessage (fun _ => false) "hola" none =
        "https://wa.me/?text=" ++ encodeURIComponent "hola") :=
  ⟨⟨rfl, (sendWhatsAppMessage_dispatch (fun _ => true) "hola" (some "549")).1 rfl⟩,
   ⟨rfl, (sendWhatsAppMessage_dispatch (fun _ => false) "hola" none).2 rfl⟩⟩

/-- C10: for a nonempty phone the message text is URL-encoded in both the
scheme URL and the web fallback while the phone string is inserted verbatim
in both; an empty-string phone from the form (`phone || undefined`) is
treated as absent and dispatches exactly like no phone, yielding the
no-phone URL variant. -/
theorem phone_verbatim_encoding (text p : String) (res : String → Bool)
    (hp : p ≠ "") :
    sendWhatsAppMessage (fun _ => true) text (some p) =
      "whatsapp://send?phone=" ++ p ++ "&text=" ++ encodeURIComponent text ∧
    sendWhatsAppMessage (fun _ => false) text (some p) =
      "https://wa.me/" ++ p ++ "?text=" ++ encodeURIComponent text ∧
    jsUndefined "" = none ∧
    sendWhatsAppMessage res text (jsUndefined "") = sendWhatsAppMessage res text none ∧
    sendWhatsAppMessage (fun _ => true) text (jsUndefined "") =
      "whatsapp://send?text=" ++ encodeURIComponent text := by
  have hpt : jsTruthy (some p) = true := by simpa [jsTruthy] using hp
  exact ⟨by simp [sendWhatsAppMessage, hpt], by simp [sendWhatsAppMessage, hpt],
    rfl, rfl, rfl⟩

/-- Witness for C10 at a concrete nonempty phone. -/
theorem phone_verbatim_encoding_witness :
    ("549" : String) ≠ "" ∧
    sendWhatsAppMessage (fun _ => true) "hola" (some "549") =
      "whatsapp://send?phone=" ++ "549" ++ "&text=" ++ encodeURIComponent "hola" ∧
    sendWhatsAppMessage (fun _ => true) "hola" (jsUndefined "") =
      "whatsapp://send?text=" ++ encodeURIComponent "hola" :=
  ⟨by decide,
    (phone_verbatim_encoding "hola" "549" (fun _ => true) (by decide)).1,
    (phone_verbatim_encoding "hola" "549" (fun _ => true) (by decide)).2.2.2.2⟩

/-- C2 fails as stated: a title containing a newline yields five lines (the
composer does no escaping), and an empty-string link — present but falsy — is
dropped just like an absent one, yielding three lines where the claim
requires four. -/
theorem composer_lines_counterexample :
    countLines (buildWhatsAppText ⟨"a\nb", "s", "e", none, some "L"⟩) = 5 ∧
    ¬ countLines (buildWhatsAppText ⟨"a\nb", "s", "e", none, some "L"⟩) = 4 ∧
    countLines (buildWhatsAppText ⟨"t", "s", "e", none, some ""⟩) = 3 ∧
    ¬ countLines (buildWhatsAppText ⟨"t", "s", "e", none, some ""⟩) = 4 :=
  ⟨by decide, by decide, by decide, by decide⟩

/-- C2 (amended): when no field contains a newline, the composer's output has
exactly four lines when the link is present and nonempty and three lines when
the link is absent or empty; the location line shows the `—` placeholder when
the location is absent; and the output contains the title and the
`start - end` range as literal substrings. -/
theorem composer_lines_amended (p : WAParams)
    (ht : noNewline p.title = true) (hs : noNewline p.start = true)
    (he : noNewline p.end_ = true)
    (hloc : ∀ l, p.location = some l → noNewline l = true)
    (hlink : ∀ l, p.link = some l → noNewline l = true) :
    (countLines (buildWhatsAppText p) = if jsTruthy p.link then 4 else 3) ∧
    (p.location = none →
      ∃ a b, buildWhatsAppText p = a ++ ("📍 " ++ "—" ++ "\n") ++ b) ∧
    (∃ a b, buildWhatsAppText p = a ++ p.title ++ b) ∧
    (∃ a b, buildWhatsAppText p = a ++ (p.start ++ " - " ++ p.end_) ++ b) := by
  have hlocnn : noNewline (jsOrD p.location "—") = true := by
    cases hl : p.location with
    | none => decide
    | some l =>
      simp only [jsOrD]
      split
      · decide
      · exact hloc l hl
  have hlinknn : noNewline (p.link.getD "") = true := by
    cases hk : p.link with
    | none => decide
    | some l => simpa using hlink l hk
  have e1 : ("📅 *" : String).data.count '\n' = 0 := by decide
  have e2 : ("*\n" : String).data.count '\n' = 1 := by decide
  have e3 : ("🕒 " : String).data.count '\n' = 0 := by decide
  have e4 : ((" - ") : String).data.count '\n' = 0 := by decide
  have e5 : ("\n" : String).data.count '\n' = 1 := by decide
  have e6 : ("📍 " : String).data.count '\n' = 0 := by decide
  have e7 : ("🔗 " : String).data.count '\n' = 0 := by decide
  refine ⟨?_, ?_, ?_, ?_⟩
  · have hd := buildWhatsAppText_data p
    cases hL : jsTruthy p.link with
    | false =>
      rw [hL] at hd
      simp only [Bool.false_eq_true, if_false, String.data_append] at hd
      have ct : (buildWhatsAppText p).data.count '\n' = 3 := by
        rw [hd]
        simp [List.count_append, e1, e2, e3, e4, e5, e6, noNewline_count ht,
          noNewline_count hs, noNewline_count he, noNewline_count hlocnn]
      have hne : (buildWhatsAppText p).data ≠ [] := by
        intro h0
        rw [h0] at ct
        simp at ct
      have hre : (buildWhatsAppText p).data =
          (['📅', ' ', '*'] ++ p.title.data ++ ['*', '\n', '🕒', ' '] ++ p.start.data ++
            [' ', '-', ' '] ++ p.end_.data ++ ['\n', '📍', ' '] ++
            (jsOrD p.location "—").data) ++ ['\n'] := by
        rw [hd]
        simp [List.append_assoc]
      have hlast : (buildWhatsAppText p).data.getLast? = some '\n' := by
        rw [hre, List.getLast?_append]
        rfl
      simp [countLines, List.isEmpty_iff, hne, ct, hlast, hL]
    | true =>
      obtain ⟨l, hkl, hlne⟩ : ∃ l, p.link = some l ∧ l ≠ "" := by
        cases hk : p.link with
        | none => simp [jsTruthy, hk] at hL
        | some l =>
          refine ⟨l, rfl, ?_⟩
          have := hL
          rw [hk] at this
          simpa [jsTruthy] using this
      have hlnn : noNewline l = true := by simpa [hkl] using hlinknn
      rw [hL] at hd
      rw [hkl] at hd
      simp only [if_true, eq_self_iff_true, Option.getD_some, String.data_append] at hd
      have ct : (buildWhatsAppText p).data.count '\n' = 3 := by
        rw [hd]
        simp [List.count_append, e1, e2, e3, e4, e5, e6, e7, noNewline_count ht,
          noNewline_count hs, noNewline_count he, noNewline_count hlocnn,
          noNewline_count hlnn]
      have hne : (buildWhatsAppText p).data ≠ [] := by
        intro h0
        rw [h0] at ct
        simp at ct
      obtain ⟨c, hc⟩ : ∃ c, l.data.getLast? = some c := by
        cases hgl : l.data.getLast? with
        | none => exact absurd (List.getLast?_eq_none_iff.mp hgl) (data_ne_nil hlne)
        | some c => exact ⟨c, rfl⟩
      have hcmem : c ∈ l.data := by
        obtain ⟨hnn, hcg⟩ := List.mem_getLast?_eq_getLast (Option.mem_def.mpr hc)
        rw [hcg]
        exact List.getLast_mem hnn
      have hcne : c ≠ '\n' := by
        have := List.all_eq_true.mp hlnn c hcmem
        simpa using this
      have hre : (buildWhatsAppText p).data =
          (['📅', ' ', '*'] ++ p.title.data ++ ['*', '\n', '🕒', ' '] ++ p.start.data ++
            [' ', '-', ' '] ++ p.end_.data ++ ['\n', '📍', ' '] ++
            (jsOrD p.location "—").data ++ ['\n', '🔗', ' ']) ++ l.data := by
        rw [hd]
        simp [List.append_assoc]
      have hlast : (buildWhatsAppText p).data.getLast? = some c := by
        rw [hre, List.getLast?_append, hc]
        rfl
      simp [countLines, List.isEmpty_iff, hne, ct, hlast, hL, hcne]
  · intro hl0
    refine ⟨"📅 *" ++ p.title ++ "*\n" ++ "🕒 " ++ p.start ++ " - " ++ p.end_ ++ "\n",
      (if jsTruthy p.link then ("🔗 " : String) ++ p.link.getD "" else ""), ?_⟩
    simp [buildWhatsAppText, hl0, jsOrD, String.append_assoc]
  · refine ⟨"📅 *",
      "*\n" ++ "🕒 " ++ p.start ++ " - " ++ p.end_ ++ "\n" ++ "📍 " ++
        jsOrD p.location "—" ++ "\n" ++
        (if jsTruthy p.link then ("🔗 " : String) ++ p.link.getD "" else ""), ?_⟩
    simp [buildWhatsAppText, String.append_assoc]
  · refine ⟨"📅 *" ++ p.title ++ "*\n" ++ "🕒 ",
      "\n" ++ "📍 " ++ jsOrD p.location "—" ++ "\n" ++
        (if jsTruthy p.link then ("🔗 " : String) ++ p.link.getD "" else ""), ?_⟩
    simp [buildWhatsAppText, String.append_assoc]

/-- Witness for C2 (amended) at a concrete newline-free input with no link. -/
theorem composer_lines_amended_witness :
    noNewline "Reunión" = true ∧
    countLines (buildWhatsAppText
      ⟨"Reunión", "2024-06-11 09:00", "2024-06-11 09:30", none, none⟩) = 3 := by
  refine ⟨by decide, ?_⟩
  have h := (composer_lines_amended
    ⟨"Reunión", "2024-06-11 09:00", "2024-06-11 09:30", none, none⟩
    (by decide) (by decide) (by decide) (fun l h => nomatch h) (fun l h => nomatch h)).1
  simpa [jsTruthy] using h

theorem lookup_insertEntry (m : List (String × List AgendaEntry)) (k q : String)
    (v : AgendaEntry) :
    List.lookup q (insertEntry m k v) =
      if q = k then some (((List.lookup k m).getD []) ++ [v])
      else List.lookup q m := by
  induction m with
  | nil =>
    by_cases hq : q = k
    · simp [insertEntry, List.lookup, hq, beq_iff_eq.mpr hq]
    · simp [insertEntry, List.lookup, hq, beq_eq_false_iff_ne.mpr hq]
  | cons hd tl ih =>
    obtain ⟨k0, vs⟩ := hd
    by_cases h0 : k0 = k
    · subst h0
      by_cases hq : q = k0
      · simp [insertEntry, List.lookup, hq, beq_iff_eq.mpr hq]
      · simp [insertEntry, List.lookup, hq, beq_eq_false_iff_ne.mpr hq]
    · by_cases hq : q = k
      · subst hq
        have hqk : ¬ q = k0 := fun h => h0 h.symm
        simp [insertEntry, List.lookup, h0, hqk, beq_eq_false_iff_ne.mpr hqk, ih]
      · by_cases hq0 : q = k0
        · simp [insertEntry, List.lookup, h0, hq, hq0, beq_iff_eq.mpr hq0, ih]
        · simp [insertEntry, List.lookup, h0, hq, hq0, beq_eq_false_iff_ne.mpr hq0, ih]

theorem mem_keys_insertEntry (m : List (String × List AgendaEntry)) (k q : String)
    (v : AgendaEntry) :
    q ∈ (insertEntry m k v).map Prod.fst ↔ q ∈ m.map Prod.fst ∨ q = k := by
  induction m with
  | nil => simp [insertEntry]
  | cons hd tl ih =>
    obtain ⟨k0, vs⟩ := hd
    by_cases h0 : k0 = k
    · simp [insertEntry, h0, ih, or_assoc]
      tauto
    · simp [insertEntry, h0, ih, or_assoc]

theorem agendaGet_foldl (now : Datetime) (evs : List GEvent)
    (m : List (String × List AgendaEntry)) (k : String) :
    agendaGet (evs.foldl (fun m e => insertEntry m (keyOf now e) (entryOf now e)) m) k =
      agendaGet m k ++ (evs.filter (fun e => keyOf now e == k)).map (entryOf now) := by
  induction evs generalizing m with
  | nil => simp
  | cons e es ih =>
    by_cases h : keyOf now e = k
    · subst h
      have hk : (keyOf now e == keyOf now e) = true := by simp
      simp only [List.foldl_cons, ih, List.filter_cons, hk, if_true, List.map_cons]
      simp [agendaGet, lookup_insertEntry, List.append_assoc]
    · have hk : (keyOf now e == k) = false := beq_eq_false_iff_ne.mpr h
      have hnk : ¬ k = keyOf now e := fun hh => h hh.symm
      simp only [List.foldl_cons, ih, List.filter_cons, hk, Bool.false_eq_true, if_false]
      simp [agendaGet, lookup_insertEntry, hnk]

theorem mem_keys_foldl (now : Datetime) (evs : List GEvent)
    (m : List (String × List AgendaEntry)) (k : String) :
    k ∈ (evs.foldl (fun m e => insertEntry m (keyOf now e) (entryOf now e)) m).map Prod.fst ↔
      k ∈ m.map Prod.fst ∨ ∃ e ∈ evs, keyOf now e = k := by
  induction evs generalizing m with
  | nil => simp
  | cons e es ih =>
    simp only [List.foldl_cons, ih, mem_keys_insertEntry, List.mem_cons]
    constructor
    · rintro (⟨h | h⟩ | ⟨e0, he0, hk⟩)
      · exact Or.inl h
      · exact Or.inr ⟨e, Or.inl rfl, h.symm⟩
      · exact Or.inr ⟨e0, Or.inr he0, hk⟩
    · rintro (h | ⟨e0, (rfl | he0), hk⟩)
      · exact Or.inl (Or.inl h)
      · exact Or.inl (Or.inr hk.symm)
      · exact Or.inr ⟨e0, he0, hk⟩

/-- C3: the agenda mapping built on refresh groups events by their effective
start day: the sequence at key `k` is exactly the provider-ordered
subsequence of events whose start-day key is `k`, the key set is exactly the
set of derived start-day keys, an empty event list yields the empty mapping,
and a zero-item provider response leaves `loadMonthEvents` with an empty
mapping. -/
theorem buildAgenda_grouping (now : Datetime) (evs : List GEvent) (k : String)
    (s : AppState) :
    agendaGet (buildAgenda now evs) k =
      (evs.filter (fun e => keyOf now e == k)).map (entryOf now) ∧
    (k ∈ (buildAgenda now evs).map Prod.fst ↔ ∃ e ∈ evs, keyOf now e = k) ∧
    buildAgenda now [] = [] ∧
    (loadMonthEvents now (Except.ok ⟨some []⟩)
      { s with accessToken := some "T1" }).items = [] := by
  refine ⟨?_, ?_, rfl, ?_⟩
  · simpa [buildAgenda] using agendaGet_foldl now evs [] k
  · simpa [buildAgenda] using mem_keys_foldl now evs [] k
  · simp [loadMonthEvents, listEvents, authHeader, jsTruthy, buildAgenda]

/-- C9: an event without a summary is displayed as `"(Sin título)"`, and an
event whose effective start or effective end is absent gets the all-day
placeholder `"Todo el día"`. -/
theorem entry_placeholders (now : Datetime) (e : GEvent) :
    (e.summary = none → (entryOf now e).name = "(Sin título)") ∧
    (effStart e = none ∨ effEnd e = none → (entryOf now e).time = "Todo el día") := by
  constructor
  · intro h
    simp [entryOf, jsOrD, h]
  · intro h
    rcases h with h | h <;> simp [entryOf, h, jsTruthy]

/-- Witness for C9 at a concrete summary-less, start-less event. -/
theorem entry_placeholders_witness :
    (GEvent.mk none none none none).summary = none ∧
    effStart (GEvent.mk none none none none) = none ∧
    (entryOf ⟨2024, 6, 15, 10, 0, 0⟩ (GEvent.mk none none none none)).name = "(Sin título)" ∧
    (entryOf ⟨2024, 6, 15, 10, 0, 0⟩ (GEvent.mk none none none none)).time = "Todo el día" :=
  ⟨rfl, rfl, (entry_placeholders _ _).1 rfl, (entry_placeholders _ _).2 (Or.inl rfl)⟩

/-- C5: submitting the creation form with an empty or whitespace-only title
only shows the validation alert: the state is otherwise untouched (same form
fields, agenda mapping and token) and neither the HTTP layer nor the
dispatcher is invoked (the request and opened-URL logs do not grow). -/
theorem create_empty_title_no_call (now : Datetime) (s : AppState)
    (createNet : Except String GEvent) (canOpenWA : Bool)
    (refetch : Except String RespData) (h : jsTrim s.title = "") :
    step now s (Action.createEvt createNet canOpenWA refetch) =
      { s with alerts := s.alerts ++ [("Falta título", "Ingresa un título.")] } := by
  simp [step, onCreateEvent, h]

/-- Witness for C5 at a whitespace-only title. -/
theorem create_empty_title_no_call_witness :
    jsTrim "   " = "" ∧
    step ⟨2024, 6, 15, 10, 0, 0⟩
        { initState ⟨2024, 6, 15, 10, 0, 0⟩ with title := "   " }
        (Action.createEvt (Except.error "x") true (Except.error "y")) =
      { initState ⟨2024, 6, 15, 10, 0, 0⟩ with
        title := "   ",
        alerts := [("Falta título", "Ingresa un título.")] } :=
  ⟨by decide,
    create_empty_title_no_call ⟨2024, 6, 15, 10, 0, 0⟩
      { initState ⟨2024, 6, 15, 10, 0, 0⟩ with title := "   " }
      (Except.error "x") true (Except.error "y") (by decide)⟩

/-- C6: when the event fetch behind a refresh fails — the network call
errors, or no token is stored — a console warning is counted, no alert is
shown, and the displayed agenda mapping keeps its previous value. -/
theorem refresh_failure_stale (now : Datetime) (s : AppState) (m : String)
    (net : Except String RespData) :
    ((step now s (Action.refresh (Except.error m))).items = s.items ∧
     (step now s (Action.refresh (Except.error m))).warnings = s.warnings + 1 ∧
     (step now s (Action.refresh (Except.error m))).alerts = s.alerts) ∧
    (s.accessToken = none →
      (step now s (Action.refresh net)).items = s.items ∧
      (step now s (Action.refresh net)).warnings = s.warnings + 1 ∧
      (step now s (Action.refresh net)).alerts = s.alerts) := by
  constructor
  · cases haut : authHeader s.accessToken <;>
      simp [step, loadMonthEvents, listEvents, haut]
  · intro htok
    cases net <;> simp [step, loadMonthEvents, listEvents, authHeader, htok, jsTruthy]

/-- Witness for C6 in the no-token case. -/
theorem refresh_failure_stale_witness :
    (initState ⟨2024, 6, 15, 10, 0, 0⟩).accessToken = none ∧
    (step ⟨2024, 6, 15, 10, 0, 0⟩ (initState ⟨2024, 6, 15, 10, 0, 0⟩)
        (Action.refresh (Except.ok ⟨some []⟩))).items = [] ∧
    (step ⟨2024, 6, 15, 10, 0, 0⟩ (initState ⟨2024, 6, 15, 10, 0, 0⟩)
        (Action.refresh (Except.ok ⟨some []⟩))).warnings = 1 :=
  ⟨rfl,
    ((refresh_failure_stale ⟨2024, 6, 15, 10, 0, 0⟩ (initState ⟨2024, 6, 15, 10, 0, 0⟩)
        "m" (Except.ok ⟨some []⟩)).2 rfl).1,
    ((refresh_failure_stale ⟨2024, 6, 15, 10, 0, 0⟩ (initState ⟨2024, 6, 15, 10, 0, 0⟩)
        "m" (Except.ok ⟨some []⟩)).2 rfl).2.1⟩

theorem loadMonthEvents_logged (now : Datetime) (net : Except String RespData)
    (s : AppState) : (loadMonthEvents now net s).logged = s.logged := by
  cases haut : authHeader s.accessToken <;> cases net <;>
    simp [loadMonthEvents, listEvents, haut]

theorem loadMonthEvents_accessToken (now : Datetime) (net : Except String RespData)
    (s : AppState) : (loadMonthEvents now net s).accessToken = s.accessToken := by
  cases haut : authHeader s.accessToken <;> cases net <;>
    simp [loadMonthEvents, listEvents, haut]

theorem onCreateEvent_logged (now : Datetime) (c : Except String GEvent)
    (co : Bool) (r : Except String RespData) (s : AppState) :
    (onCreateEvent now c co r s).logged = s.logged := by
  unfold onCreateEvent
  split
  · rfl
  · split
    · cases haut : authHeader s.accessToken <;> cases c <;>
        simp [createEvent, haut, loadMonthEvents_logged]
    · rfl

theorem onCreateEvent_accessToken (now : Datetime) (c : Except String GEvent)
    (co : Bool) (r : Except String RespData) (s : AppState) :
    (onCreateEvent now c co r s).accessToken = s.accessToken := by
  unfold onCreateEvent
  split
  · rfl
  · split
    · cases haut : authHeader s.accessToken <;> cases c <;>
        simp [createEvent, haut, loadMonthEvents_accessToken]
    · rfl

theorem step_logged_mono (now : Datetime) (s : AppState) (a : Action)
    (h : s.logged = true) : (step now s a).logged = true := by
  cases a with
  | login auth fetch =>
    cases auth <;> simp [step, handleLogin, loadMonthEvents_logged, h]
  | refresh fetch => simp [step, loadMonthEvents_logged, h]
  | createEvt c co r => simp [step, onCreateEvent_logged, h]
  | importC g n => cases g <;> simp [step, importContacts, h]
  | setTitle v => exact h
  | setDate v => exact h
  | setStart v => exact h
  | setEnd v => exact h
  | setLocation v => exact h
  | setPhone v => exact h

theorem step_token_mono (now : Datetime) (s : AppState) (a : Action)
    (h : s.accessToken ≠ none) : (step now s a).accessToken ≠ none := by
  cases a with
  | login auth fetch =>
    cases auth with
    | ok t =>
      rw [show (step now s (Action.login (Except.ok t) fetch)).accessToken = some t by
        simp [step, handleLogin, loadMonthEvents_accessToken]]
      exact Option.some_ne_none t
    | error m => simpa [step, handleLogin] using h
  | refresh fetch => simpa [step, loadMonthEvents_accessToken] using h
  | createEvt c co r => simpa [step, onCreateEvent_accessToken] using h
  | importC g n => cases g <;> simpa [step, importContacts] using h
  | setTitle v => exact h
  | setDate v => exact h
  | setStart v => exact h
  | setEnd v => exact h
  | setLocation v => exact h
  | setPhone v => exact h

theorem foldl_logged_mono (now : Datetime) (more : List Action) (s : AppState)
    (h : s.logged = true) : (more.foldl (step now) s).logged = true := by
  induction more generalizing s with
  | nil => exact h
  | cons a rest ih => exact ih _ (step_logged_mono now s a h)

theorem foldl_token_mono (now : Datetime) (more : List Action) (s : AppState)
    (h : s.accessToken ≠ none) : (more.foldl (step now) s).accessToken ≠ none := by
  induction more generalizing s with
  | nil => exact h
  | cons a rest ih => exact ih _ (step_token_mono now s a h)

/-- C8: along every action sequence, once the controller is logged in it
never returns to logged out, and once a session token is stored it is never
cleared; a failed login from the logged-out state keeps it logged out and
surfaces an error alert. -/
theorem logged_monotone_token_persistent (now : Datetime)
    (acts more : List Action) :
    ((run now acts).logged = true → (run now (acts ++ more)).logged = true) ∧
    ((run now acts).accessToken ≠ none →
      (run now (acts ++ more)).accessToken ≠ none) ∧
    (∀ m fetch, (run now acts).logged = false →
      (run now (acts ++ [Action.login (Except.error m) fetch])).logged = false ∧
      (run now (acts ++ [Action.login (Except.error m) fetch])).alerts =
        (run now acts).alerts ++
          [("Error", jsOrDS m "No se pudo iniciar sesión.")]) := by
  refine ⟨?_, ?_, ?_⟩
  · intro h
    rw [run, List.foldl_append]
    exact foldl_logged_mono now more _ h
  · intro h
    rw [run, List.foldl_append]
    exact foldl_token_mono now more _ h
  · intro m fetch h
    rw [run, List.foldl_append]
    constructor
    · simpa [step, handleLogin] using h
    · simp [step, handleLogin, run]

/-- Witness for C8: a successful login followed by a failing refresh stays
logged in with the token kept, and a failed login from the initial state
stays logged out with the error alert. -/
theorem logged_monotone_token_persistent_witness :
    ((run ⟨2024, 6, 15, 10, 0, 0⟩
        [Action.login (Except.ok "T1") (Except.ok ⟨some []⟩)]).logged = true ∧
      (run ⟨2024, 6, 15, 10, 0, 0⟩
        ([Action.login (Except.ok "T1") (Except.ok ⟨some []⟩)] ++
          [Action.refresh (Except.error "boom")])).logged = true) ∧
    ((run ⟨2024, 6, 15, 10, 0, 0⟩
        ([Action.login (Except.ok "T1") (Except.ok ⟨some []⟩)] ++
          [Action.refresh (Except.error "boom")])).accessToken ≠ none) ∧
    ((run ⟨2024, 6, 15, 10, 0, 0⟩ ([] ++ [Action.login (Except.error "denied")
        (Except.ok ⟨some []⟩)])).logged = false) := by
  refine ⟨⟨by decide, ?_⟩, ?_, ?_⟩
  · exact (logged_monotone_token_persistent ⟨2024, 6, 15, 10, 0, 0⟩
      [Action.login (Except.ok "T1") (Except.ok ⟨some []⟩)]
      [Action.refresh (Except.error "boom")]).1 (by decide)
  · exact (logged_monotone_token_persistent ⟨2024, 6, 15, 10, 0, 0⟩
      [Action.login (Except.ok "T1") (Except.ok ⟨some []⟩)]
      [Action.refresh (Except.error "boom")]).2.1 (by decide)
  · exact ((logged_monotone_token_persistent ⟨2024, 6, 15, 10, 0, 0⟩ []
      [] ).2.2 "denied" (Except.ok ⟨some []⟩) (by decide)).1

/-- C7: end-to-end scenario: sign-in succeeds with token `"T1"`, the month
fetch returns the single Lunch event, and the agenda mapping has exactly the
key `"2024-06-10"` holding one entry named `"Lunch"` timed
`"12:00 - 13:00"`. -/
theorem login_lunch_scenario :
    let now : Datetime := ⟨2024, 6, 15, 10, 0, 0⟩
    let lunch : GEvent :=
      ⟨some "Lunch", some ⟨some "2024-06-10T12:00:00Z", none⟩,
       some ⟨some "2024-06-10T13:00:00Z", none⟩, none⟩
    let s := run now [Action.login (Except.ok "T1") (Except.ok ⟨some [lunch]⟩)]
    s.accessToken = some "T1" ∧ s.logged = true ∧
    s.items = [("2024-06-10", [⟨"Lunch", "12:00 - 13:00", lunch⟩])] :=
  ⟨rfl, rfl, by decide⟩

end MVP
